import Mathlib

/-!
Shallow embedding of the Yahtzee-style scoring engine of `src/hooks/useGame.ts`
(the `getPossibleScores` closure of the `useGame` hook and its inner helper
`calculateLocalScore`), together with proofs of the behavioural claims about it.

Dice values are modelled as `Int` (JS numbers coming from the backend are
integers; invalid hands may hold arbitrary integers).  Category identifiers are
modelled as `String`, exactly as in the source, because the engine dispatches on
string identity (`switch (category)` / object-key lookup), and the mismatch
between the caller's camelCase identifiers and the lowercase `switch` labels is
behaviourally significant.
-/

/-- A JavaScript property-lookup result: the property may be absent
(`undefined`), explicitly `null`, or a number.  `scoreSheet[category]` in the
source is compared against `null` with `===`, which distinguishes `undefined`
from `null`. -/
inductive JsVal where
  | undef : JsVal
  | jsNull : JsVal
  | num : Int → JsVal
deriving DecidableEq

/-- The frontend `ScoreSheet` record, as initialised in `useGame`'s `useState`:
thirteen nullable category slots plus the non-nullable bonus/total fields. -/
structure ScoreSheet where
  ones : Option Int
  twos : Option Int
  threes : Option Int
  fours : Option Int
  fives : Option Int
  sixes : Option Int
  upperBonus : Int
  upperTotal : Int
  threeOfkind : Option Int
  fourOfkind : Option Int
  fullHouse : Option Int
  smallStraight : Option Int
  largeStraight : Option Int
  yahtzee : Option Int
  chance : Option Int
  lowerTotal : Int
deriving DecidableEq

/-- JS property access `sheet[key]`: a nullable slot yields its number or
`null`; the bonus/total fields yield numbers; any other key — in particular the
typo identifier `"fouroOkind"` used in the categories array — yields
`undefined`. -/
def sheetLookup (s : ScoreSheet) (key : String) : JsVal :=
  let opt : Option Int → JsVal := fun o => match o with
    | none => JsVal.jsNull
    | some n => JsVal.num n
  match key with
  | "ones" => opt s.ones
  | "twos" => opt s.twos
  | "threes" => opt s.threes
  | "fours" => opt s.fours
  | "fives" => opt s.fives
  | "sixes" => opt s.sixes
  | "upperBonus" => JsVal.num s.upperBonus
  | "upperTotal" => JsVal.num s.upperTotal
  | "threeOfkind" => opt s.threeOfkind
  | "fourOfkind" => opt s.fourOfkind
  | "fullHouse" => opt s.fullHouse
  | "smallStraight" => opt s.smallStraight
  | "largeStraight" => opt s.largeStraight
  | "yahtzee" => opt s.yahtzee
  | "chance" => opt s.chance
  | "lowerTotal" => JsVal.num s.lowerTotal
  | _ => JsVal.undef

/-- The initial score sheet of the hook's `useState`: every category `null`,
bonus and totals `0`. -/
def freshSheet : ScoreSheet where
  ones := none
  twos := none
  threes := none
  fours := none
  fives := none
  sixes := none
  upperBonus := 0
  upperTotal := 0
  threeOfkind := none
  fourOfkind := none
  fullHouse := none
  smallStraight := none
  largeStraight := none
  yahtzee := none
  chance := none
  lowerTotal := 0

/-- The backend `PossibleScores` payload cached in the `possibleScores` state:
one optional numeric score per backend key (`undefined` when the API did not
provide that field, modelled as `none`). -/
structure PossibleScores where
  ones : Option Int
  twos : Option Int
  threes : Option Int
  fours : Option Int
  fives : Option Int
  sixes : Option Int
  threeOfkind : Option Int
  fourOfkind : Option Int
  fullHouse : Option Int
  smallStraight : Option Int
  largeStraight : Option Int
  yahtzee : Option Int
  chance : Option Int
deriving DecidableEq

/-- JS property access `possibleScores[key]` (`none` = `undefined`). -/
def psLookup (ps : PossibleScores) (key : String) : Option Int :=
  match key with
  | "ones" => ps.ones
  | "twos" => ps.twos
  | "threes" => ps.threes
  | "fours" => ps.fours
  | "fives" => ps.fives
  | "sixes" => ps.sixes
  | "threeOfkind" => ps.threeOfkind
  | "fourOfkind" => ps.fourOfkind
  | "fullHouse" => ps.fullHouse
  | "smallStraight" => ps.smallStraight
  | "largeStraight" => ps.largeStraight
  | "yahtzee" => ps.yahtzee
  | "chance" => ps.chance
  | _ => none

/-- The `scoreMap` object of `getPossibleScores`: frontend `ScoreCategory`
identifiers to backend `PossibleScores` keys.  A key absent from the object —
in particular the typo identifier `"fouroOkind"` — yields `undefined`,
modelled as `none`. -/
def scoreMap (category : String) : Option String :=
  match category with
  | "ones" => some "ones"
  | "twos" => some "twos"
  | "threes" => some "threes"
  | "fours" => some "fours"
  | "fives" => some "fives"
  | "sixes" => some "sixes"
  | "threeOfkind" => some "threeOfkind"
  | "fourOfkind" => some "fourOfkind"
  | "fullHouse" => some "fullHouse"
  | "smallStraight" => some "smallStraight"
  | "largeStraight" => some "largeStraight"
  | "yahtzee" => some "yahtzee"
  | "chance" => some "chance"
  | _ => none

/-- `prefixRun pat hay` is true when `pat` occurs at the start of `hay`
(character-wise); used to model JS `String.prototype.includes`. -/
def prefixRun : List Char → List Char → Bool
  | [], _ => true
  | _ :: _, [] => false
  | p :: ps, h :: hs => p == h && prefixRun ps hs

/-- `subIn pat hay` is true when `pat` occurs as a contiguous run inside
`hay`; models `hay.includes(pat)` on JS strings. -/
def subIn (pat : List Char) : List Char → Bool
  | [] => pat.isEmpty
  | h :: hs => prefixRun pat (h :: hs) || subIn pat hs

/-- `unique.join('')` on a list of JS numbers: decimal renderings
concatenated. -/
def joinDigits (l : List Int) : String :=
  (l.map (fun v => toString v)).foldl (fun a b => a ++ b) ""

/-- The per-value occurrence counts of the hand: the values of the `counts`
object built by the `reduce` at the top of `calculateLocalScore` (one count per
distinct die value; every use in the source is order-insensitive or re-sorts,
so the enumeration order of the object keys is irrelevant). -/
def countsValues (dice : List Int) : List Nat :=
  dice.dedup.map (fun v => dice.count v)

/-- `[...dice].sort((a, b) => a - b)`: the hand sorted ascending. -/
def sortDice (dice : List Int) : List Int :=
  dice.insertionSort (fun a b => a ≤ b)

/-- `[...new Set(sorted)]`: distinct die values in ascending order. -/
def uniqueSorted (dice : List Int) : List Int :=
  (sortDice dice).dedup

/-- `dice.reduce((a, b) => a + b, 0)`. -/
def diceSum (dice : List Int) : Int :=
  dice.foldl (fun a b => a + b) 0

/-- The `calculateLocalScore` fallback of `getPossibleScores`
(src/hooks/useGame.ts lines 179‑215), modelled case for case: the `switch`
dispatches on the exact category string, and any unmatched string — including
the camelCase identifiers the caller passes for the five lower combination
categories — falls through to `default: return 0`. -/
def calculateLocalScore (dice : List Int) (category : String) : Int :=
  let counts := countsValues dice
  let sorted := sortDice dice
  let sum := diceSum dice
  match category with
  | "ones" => ((dice.filter (fun d => d == 1)).length : Int) * 1
  | "twos" => ((dice.filter (fun d => d == 2)).length : Int) * 2
  | "threes" => ((dice.filter (fun d => d == 3)).length : Int) * 3
  | "fours" => ((dice.filter (fun d => d == 4)).length : Int) * 4
  | "fives" => ((dice.filter (fun d => d == 5)).length : Int) * 5
  | "sixes" => ((dice.filter (fun d => d == 6)).length : Int) * 6
  | "threeofkind" => if counts.any (fun c => 3 ≤ c) then sum else 0
  | "fourofkind" => if counts.any (fun c => 4 ≤ c) then sum else 0
  | "fullhouse" =>
      let values := counts.insertionSort (fun a b => a ≤ b)
      if values.length = 2 ∧ values.getD 0 0 = 2 ∧ values.getD 1 0 = 3 then 25 else 0
  | "smallstraight" =>
      let unique := sorted.dedup
      let diceString := joinDigits unique
      if ["1234", "2345", "3456"].any (fun s => subIn s.data diceString.data) then 30 else 0
  | "largestraight" =>
      let unique := sorted.dedup
      if unique.length = 5 ∧ (joinDigits unique = "12345" ∨ joinDigits unique = "23456") then 40 else 0
  | "yahtzee" => if counts.any (fun c => c == 5) then 50 else 0
  | "chance" => sum
  | _ => 0

/-- One element of the list returned by `getPossibleScores`:
`{ category, name, score, isAvailable }`. -/
structure CategoryScoreOption where
  category : String
  name : String
  score : Int
  isAvailable : Bool
deriving DecidableEq

/-- The `categories` array literal at the top of `getPossibleScores`
(src/hooks/useGame.ts lines 145‑159), including the typo identifier
`"fouroOkind"` for the Four of a Kind row. -/
def categories : List (String × String) :=
  [ ("ones", "Ones"),
    ("twos", "Twos"),
    ("threes", "Threes"),
    ("fours", "Fours"),
    ("fives", "Fives"),
    ("sixes", "Sixes"),
    ("threeOfkind", "Three of a Kind"),
    ("fouroOkind", "Four of a Kind"),
    ("fullHouse", "Full House"),
    ("smallStraight", "Small Straight"),
    ("largeStraight", "Large Straight"),
    ("yahtzee", "YAHTZEE!"),
    ("chance", "Chance") ]

/-- The body of `getPossibleScores` as a function of the three pieces of hook
state it reads: the cached backend `possibleScores` (or `null`), the current
dice and the score sheet.  For each row of `categories` the score is the
backend value when `possibleScores && possibleScores[scoreMap[category]] !==
undefined`, otherwise the local fallback; `isAvailable` is
`scoreSheet[category] === null`. -/
def getPossibleScoresGo (ps : Option PossibleScores) (dice : List Int)
    (sheet : ScoreSheet) : List CategoryScoreOption :=
  categories.map (fun c =>
    let remote : Option Int :=
      match ps with
      | some p =>
        match scoreMap c.1 with
        | some key => psLookup p key
        | none => none
      | none => none
    let score : Int :=
      match remote with
      | some v => v
      | none => calculateLocalScore dice c.1
    { category := c.1,
      name := c.2,
      score := score,
      isAvailable := decide (sheetLookup sheet c.1 = JsVal.jsNull) })

/-- The slice of the `useGame` hook state that exists when `getPossibleScores`
is called (the closure also captures state it does not read, such as the
selected dice and the roll counter). -/
structure HookState where
  dice : List Int
  selectedDice : List Nat
  rollsLeft : Nat
  currentRound : Nat
  scoreSheet : ScoreSheet
  gameComplete : Bool
  totalScore : Int
  currentGameId : Option Nat
  possibleScores : Option PossibleScores
deriving DecidableEq

/-- `getPossibleScores` as the hook exposes it: a closure over the current
hook state, reading exactly `possibleScores`, `gameState.dice` and
`gameState.scoreSheet`. -/
def getPossibleScores (s : HookState) : List CategoryScoreOption :=
  getPossibleScoresGo s.possibleScores s.dice s.scoreSheet

/-- A hook state with the given remote-score cache, dice and sheet, and the
initial values of the remaining fields. -/
def stateOf (ps : Option PossibleScores) (dice : List Int) (sheet : ScoreSheet) : HookState where
  dice := dice
  selectedDice := []
  rollsLeft := 3
  currentRound := 1
  scoreSheet := sheet
  gameComplete := false
  totalScore := 0
  currentGameId := some 1
  possibleScores := ps

/-- The score field of the (unique) output row with the given category
identifier. -/
def entryScore (s : HookState) (category : String) : Int :=
  (((getPossibleScores s).filter (fun e => e.category == category)).map
    (fun e => e.score)).headD 0

/-- The isAvailable field of the (unique) output row with the given category
identifier (defaulting to `true` so that a `false` result is never an
artefact of the projection). -/
def entryAvailable (s : HookState) (category : String) : Bool :=
  (((getPossibleScores s).filter (fun e => e.category == category)).map
    (fun e => e.isAvailable)).headD true

/-- The 13 category identifiers of the engine output, in emission order. -/
def canonicalCategories : List String := categories.map (fun c => c.1)

/-- The 14 strings that have a `case` label in `calculateLocalScore`'s
`switch`. -/
def switchCases : List String :=
  [ "ones", "twos", "threes", "fours", "fives", "sixes",
    "threeofkind", "fourofkind", "fullhouse",
    "smallstraight", "largestraight", "yahtzee", "chance" ]

/-- The legal die faces. -/
def dieFaces : List Int := [1, 2, 3, 4, 5, 6]

/-- A valid hand: exactly five dice, each a legal face. -/
def validHand (dice : List Int) : Prop :=
  dice.length = 5 ∧ ∀ d ∈ dice, d ∈ dieFaces

instance : DecidablePred validHand := fun dice =>
  inferInstanceAs (Decidable (dice.length = 5 ∧ ∀ d ∈ dice, d ∈ dieFaces))

/-- All dice in the hand share one value. -/
def allSame (dice : List Int) : Prop :=
  ∀ x ∈ dice, ∀ y ∈ dice, x = y

instance : DecidablePred allSame := fun dice =>
  inferInstanceAs (Decidable (∀ x ∈ dice, ∀ y ∈ dice, x = y))

/-- A backend payload supplying only a (deliberately arbitrary) score for
`ones`, used to exhibit the engine's dependence on the cached remote scores. -/
def ps999 : PossibleScores where
  ones := some 999
  twos := none
  threes := none
  fours := none
  fives := none
  sixes := none
  threeOfkind := none
  fourOfkind := none
  fullHouse := none
  smallStraight := none
  largeStraight := none
  yahtzee := none
  chance := none

/-- On a non-empty hand, some per-value count reaches the hand's length
exactly when all dice are equal; this is the content of the source's
`Object.values(counts).some(c => c === 5)` test on 5-die hands. -/
theorem counts_any_length (dice : List Int) (hne : dice ≠ []) :
    (countsValues dice).any (fun c => c == dice.length) = true ↔ allSame dice := by
  constructor
  · intro h
    obtain ⟨c, hc, hc5⟩ := List.any_eq_true.mp h
    obtain ⟨v, hv, hcv⟩ := List.mem_map.mp hc
    have hcl : c = dice.length := beq_iff_eq.mp hc5
    have hcount : dice.count v = dice.length := by rw [hcv, hcl]
    have hall := List.count_eq_length.mp hcount
    intro x hx y hy
    rw [← hall x hx, ← hall y hy]
  · intro hall
    obtain ⟨v, hv⟩ : ∃ v, v ∈ dice := by
      rcases dice with _ | ⟨a, l⟩
      · exact absurd rfl hne
      · exact ⟨a, by simp⟩
    apply List.any_eq_true.mpr
    refine ⟨dice.count v, List.mem_map.mpr ⟨v, List.mem_dedup.mpr hv, rfl⟩, ?_⟩
    have hcount : dice.count v = dice.length :=
      List.count_eq_length.mpr (fun b hb => hall v hv b hb)
    rw [hcount]
    exact beq_iff_eq.mpr rfl

/-- The source's `reduce((a, b) => a + b, 0)` is the list sum. -/
theorem diceSum_eq_sum (dice : List Int) : diceSum dice = dice.sum := by
  have key : ∀ (l : List Int) (init : Int), l.foldl (fun a b => a + b) init = init + l.sum := by
    intro l
    induction l with
    | nil => intro init; simp
    | cons h t ih =>
      intro init
      rw [List.foldl_cons, List.sum_cons, ih (init + h), add_assoc]
  rw [diceSum, key, zero_add]

/-- C1: the three-of-a-kind and four-of-a-kind rows that `getPossibleScores`
emits with no remote scores cached do NOT follow the documented rule: the
caller passes the camelCase identifiers `"threeOfkind"` / `"fouroOkind"`,
which match no `case` label of `calculateLocalScore`'s `switch` (whose labels
are `"threeofkind"` / `"fourofkind"`), so both rows score 0 even on hands with
three (resp. four) of a kind, where the claim requires the dice sum (8,
resp. 11, here).  The lowercase labels, evaluated directly, do implement the
claimed rule on the same hands. -/
theorem threeFourOfKindEntry_bug :
    entryScore (stateOf none [1, 1, 1, 2, 3] freshSheet) "threeOfkind" = 0 ∧
    ([1, 1, 1, 2, 3] : List Int).count 1 = 3 ∧ diceSum [1, 1, 1, 2, 3] = 8 ∧
    calculateLocalScore [1, 1, 1, 2, 3] "threeofkind" = 8 ∧
    entryScore (stateOf none [2, 2, 2, 2, 3] freshSheet) "fouroOkind" = 0 ∧
    ([2, 2, 2, 2, 3] : List Int).count 2 = 4 ∧ diceSum [2, 2, 2, 2, 3] = 11 ∧
    calculateLocalScore [2, 2, 2, 2, 3] "fourofkind" = 11 := by
  decide

/-- C2: for every hook state (hence for every valid hand/sheet pair),
`getPossibleScores` returns exactly 13 rows whose category identifiers are
exactly the canonical 13, pairwise distinct, in the same fixed order on every
call. -/
theorem allCategoryOptions_thirteen_stable :
    ∀ s : HookState,
      (getPossibleScores s).map (fun e => e.category) = canonicalCategories ∧
      (getPossibleScores s).length = 13 ∧ canonicalCategories.Nodup := by
  intro s
  exact ⟨rfl, rfl, by decide⟩

/-- C3: availability is NOT `sheet[category] === null` for every row: on the
fresh sheet, where all 13 categories (in particular `fourOfkind`) are unset,
the Four of a Kind row reports `isAvailable = false`, because the row carries
the typo identifier `"fouroOkind"`, which is not a `ScoreSheet` key, so the
lookup yields `undefined`, not `null`.  The other 12 rows report `true`. -/
theorem fourOfKindAvailability_bug :
    freshSheet.fourOfkind = none ∧
    entryAvailable (stateOf none [1, 2, 3, 4, 5] freshSheet) "fouroOkind" = false ∧
    (getPossibleScoresGo none [1, 2, 3, 4, 5] freshSheet).map (fun e => e.isAvailable) =
      [true, true, true, true, true, true, true, false, true, true, true, true, true] := by
  decide

/-- C4: the full-house row that `getPossibleScores` emits with no remote
scores cached scores 0 even on `[2,2,3,3,3]`, where the claim requires 25:
the caller passes `"fullHouse"`, which misses the `switch` label
`"fullhouse"`.  The lowercase label, evaluated directly, implements the
claimed rule: 25 on counts {2,3} and 0 on five-of-a-kind. -/
theorem fullHouseEntry_bug :
    entryScore (stateOf none [2, 2, 3, 3, 3] freshSheet) "fullHouse" = 0 ∧
    calculateLocalScore [2, 2, 3, 3, 3] "fullhouse" = 25 ∧
    calculateLocalScore [4, 4, 4, 4, 4] "fullhouse" = 0 := by
  decide

/-- C5: the small- and large-straight rows that `getPossibleScores` emits with
no remote scores cached score 0 even on `[1,2,3,4,5]`, where the claim
requires 30 and 40: the caller passes `"smallStraight"`/`"largeStraight"`,
which miss the `switch` labels `"smallstraight"`/`"largestraight"`.  The
lowercase labels, evaluated directly, implement the claimed rules. -/
theorem straightEntries_bug :
    entryScore (stateOf none [1, 2, 3, 4, 5] freshSheet) "smallStraight" = 0 ∧
    entryScore (stateOf none [1, 2, 3, 4, 5] freshSheet) "largeStraight" = 0 ∧
    calculateLocalScore [1, 2, 3, 4, 5] "smallstraight" = 30 ∧
    calculateLocalScore [1, 2, 3, 4, 5] "largestraight" = 40 := by
  decide

/-- C6 counterexample: an invalid hand does not make any scoring operation
fail: a 4-die hand is scored silently (chance = 4, its sum) and
`getPossibleScores` still returns all 13 rows; a hand containing 7 likewise
yields ordinary numbers (ones = 4, chance = 11). -/
theorem invalidHand_no_failure :
    calculateLocalScore [1, 1, 1, 1] "chance" = 4 ∧
    calculateLocalScore [7, 1, 1, 1, 1] "ones" = 4 ∧
    (getPossibleScoresGo none [1, 1, 1, 1] freshSheet).length = 13 ∧
    entryScore (stateOf none [7, 1, 1, 1, 1] freshSheet) "chance" = 11 := by
  decide

/-- C6 (amended): the engine performs no hand validation at all: for every
dice array whatsoever (any length, any integer values) every scoring
operation is total and silently returns numbers — `getPossibleScores` always
produces its full 13-row output and, e.g., chance is always the plain sum of
whatever dice were supplied. -/
theorem scoring_total_on_any_dice :
    ∀ (dice : List Int) (sheet : ScoreSheet) (ps : Option PossibleScores),
      (getPossibleScoresGo ps dice sheet).length = 13 ∧
      calculateLocalScore dice "chance" = diceSum dice := by
  intro dice sheet ps
  exact ⟨rfl, rfl⟩

/-- C7 counterexample: the output of `getPossibleScores` is not recomputable
from the hand and sheet alone: two hook states with identical dice and
identical score sheets but different cached `possibleScores` produce different
outputs (the Ones row scores 5 locally but 999 from the cache). -/
theorem remoteCache_affects_output :
    (stateOf none [1, 1, 1, 1, 1] freshSheet).dice
      = (stateOf (some ps999) [1, 1, 1, 1, 1] freshSheet).dice ∧
    (stateOf none [1, 1, 1, 1, 1] freshSheet).scoreSheet
      = (stateOf (some ps999) [1, 1, 1, 1, 1] freshSheet).scoreSheet ∧
    getPossibleScores (stateOf none [1, 1, 1, 1, 1] freshSheet)
      ≠ getPossibleScores (stateOf (some ps999) [1, 1, 1, 1, 1] freshSheet) ∧
    entryScore (stateOf none [1, 1, 1, 1, 1] freshSheet) "ones" = 5 ∧
    entryScore (stateOf (some ps999) [1, 1, 1, 1, 1] freshSheet) "ones" = 999 := by
  decide

/-- C7 (amended): `getPossibleScores` is a pure function of exactly the three
pieces of state it reads — the cached remote `possibleScores`, the dice and
the score sheet: two calls on states agreeing on those three (whatever the
rest of the hook state) yield identical output. -/
theorem getPossibleScores_deterministic :
    ∀ s t : HookState, s.possibleScores = t.possibleScores → s.dice = t.dice →
      s.scoreSheet = t.scoreSheet → getPossibleScores s = getPossibleScores t := by
  intro s t h1 h2 h3
  unfold getPossibleScores
  rw [h1, h2, h3]

/-- Witness for C7 (amended): two concrete states differing in roll counter
and dice selection but agreeing on cache, dice and sheet give equal output. -/
theorem getPossibleScores_deterministic_witness :
    getPossibleScores (stateOf none [1, 2, 3, 4, 5] freshSheet) =
      getPossibleScores
        { stateOf none [1, 2, 3, 4, 5] freshSheet with rollsLeft := 0, selectedDice := [0, 2] } :=
  getPossibleScores_deterministic
    (stateOf none [1, 2, 3, 4, 5] freshSheet)
    { stateOf none [1, 2, 3, 4, 5] freshSheet with rollsLeft := 0, selectedDice := [0, 2] }
    rfl rfl rfl

/-- C8: for every valid hand, the YAHTZEE row that `getPossibleScores` emits
with no remote scores cached (the caller's identifier `"yahtzee"` does match
its `switch` label) scores 50 when all five dice share one value and 0
otherwise. -/
theorem yahtzeeEntry_correct :
    ∀ (dice : List Int) (sheet : ScoreSheet), validHand dice →
      (allSame dice → entryScore (stateOf none dice sheet) "yahtzee" = 50) ∧
      (¬ allSame dice → entryScore (stateOf none dice sheet) "yahtzee" = 0) := by
  intro dice sheet hv
  obtain ⟨hlen, _⟩ := hv
  have hne : dice ≠ [] := by
    intro h0
    rw [h0] at hlen
    simp at hlen
  have hkey : ((countsValues dice).any (fun c => c == 5) = true) ↔ allSame dice := by
    rw [← hlen]
    exact counts_any_length dice hne
  have hred : entryScore (stateOf none dice sheet) "yahtzee"
      = if (countsValues dice).any (fun c => c == 5) then (50 : Int) else 0 := rfl
  constructor
  · intro ha
    rw [hred, if_pos (hkey.mpr ha)]
  · intro ha
    rw [hred, if_neg (fun hcond => ha (hkey.mp hcond))]

/-- Witness for C8: on `[4,4,4,4,4]` the YAHTZEE row scores 50. -/
theorem yahtzeeEntry_correct_witness :
    validHand [4, 4, 4, 4, 4] ∧ allSame [4, 4, 4, 4, 4] ∧
    entryScore (stateOf none [4, 4, 4, 4, 4] freshSheet) "yahtzee" = 50 :=
  ⟨by decide, by decide,
    (yahtzeeEntry_correct [4, 4, 4, 4, 4] freshSheet (by decide)).1 (by decide)⟩

/-- C9: for every hand (valid ones included) and sheet, the upper-section
rows that `getPossibleScores` emits with no remote scores cached score
`count(hand, n) * n` for the matching face `n`, and the Chance row scores the
sum of the dice unconditionally. -/
theorem upperSectionAndChance_correct :
    ∀ (dice : List Int) (sheet : ScoreSheet),
      entryScore (stateOf none dice sheet) "ones" = (dice.count 1 : Int) * 1 ∧
      entryScore (stateOf none dice sheet) "twos" = (dice.count 2 : Int) * 2 ∧
      entryScore (stateOf none dice sheet) "threes" = (dice.count 3 : Int) * 3 ∧
      entryScore (stateOf none dice sheet) "fours" = (dice.count 4 : Int) * 4 ∧
      entryScore (stateOf none dice sheet) "fives" = (dice.count 5 : Int) * 5 ∧
      entryScore (stateOf none dice sheet) "sixes" = (dice.count 6 : Int) * 6 ∧
      entryScore (stateOf none dice sheet) "chance" = dice.sum := by
  intro dice sheet
  have hc : entryScore (stateOf none dice sheet) "chance" = diceSum dice := rfl
  refine ⟨?_, ?_, ?_, ?_, ?_, ?_, hc.trans (diceSum_eq_sum dice)⟩
  · show ((dice.filter (fun d => d == 1)).length : Int) * 1 = (dice.count 1 : Int) * 1
    simp [List.count, List.countP_eq_length_filter]
  · show ((dice.filter (fun d => d == 2)).length : Int) * 2 = (dice.count 2 : Int) * 2
    simp [List.count, List.countP_eq_length_filter]
  · show ((dice.filter (fun d => d == 3)).length : Int) * 3 = (dice.count 3 : Int) * 3
    simp [List.count, List.countP_eq_length_filter]
  · show ((dice.filter (fun d => d == 4)).length : Int) * 4 = (dice.count 4 : Int) * 4
    simp [List.count, List.countP_eq_length_filter]
  · show ((dice.filter (fun d => d == 5)).length : Int) * 5 = (dice.count 5 : Int) * 5
    simp [List.count, List.countP_eq_length_filter]
  · show ((dice.filter (fun d => d == 6)).length : Int) * 6 = (dice.count 6 : Int) * 6
    simp [List.count, List.countP_eq_length_filter]

/-- C10: `calculateLocalScore` is total and silent: it is a plain function
into the integers, and every category string with no matching `case` label in
its `switch` — the camelCase identifiers its caller passes for the five lower
combination rows among them — takes the `default` branch and returns 0,
whatever the dice array. -/
theorem calculateLocalScore_default_zero :
    ∀ (dice : List Int) (cat : String), cat ∉ switchCases → calculateLocalScore dice cat = 0 := by
  intro dice cat h
  simp only [switchCases, List.mem_cons, not_or] at h
  unfold calculateLocalScore
  split <;> simp_all

/-- Witness for C10: the caller's identifier `"threeOfkind"` matches no
`case` label, and scores 0 on an arbitrary hand. -/
theorem calculateLocalScore_default_zero_witness :
    "threeOfkind" ∉ switchCases ∧ calculateLocalScore [1, 2, 3, 4, 5] "threeOfkind" = 0 :=
  ⟨by decide, calculateLocalScore_default_zero [1, 2, 3, 4, 5] "threeOfkind" (by decide)⟩
